import Mathlib

/-!
Shallow embedding of the underwriting workflow orchestration core of the
mortgage-underwriter backend (Django + Celery), covering:

* `backend/applications/underwriting/models.py` — the persisted records
  (`UnderwritingWorkflow`, `AgentAnalysis`, `UnderwritingDecision`,
  `RiskFactor`, `Condition`, `AuditTrail`) and the `UnderwritingDecision.save`
  hook that recomputes `final_decision`;
* `backend/applications/underwriting/tasks.py` — the Celery tasks
  `start_underwriting_workflow`, `update_workflow_status`,
  `save_agent_analysis`, `save_underwriting_decision`, and the pure snapshot
  builder `prepare_application_data`;
* `backend/applications/underwriting/views.py` — the `callback`, `cancel`,
  `human_review` and `override` actions;
* the parts of `backend/applications/applications/models.py` read by the
  snapshot builder (`LoanApplication`, `Borrower` with `masked_ssn`,
  `CreditProfile`, `Employment`, `Asset`, `Liability`, `LargeDeposit`,
  `Property`).

Modelling conventions:

* Statuses and other Django `CharField`s are plain `String`s: Django does not
  enforce `choices` at save time, and `update_workflow_status` copies the
  status string straight out of the callback payload.
* Timestamps (`timezone.now()`) are abstract `Nat` instants threaded into each
  operation as a `now` argument; durations are `Int` differences.
* `DecimalField`/float values are modelled as exact `Rat`; the `float(...)`
  conversions in `prepare_application_data` are value-preserving here (no
  claim depends on floating-point rounding).
* Python `dict.get(key, default)` on a payload is an `Option` field plus
  `Option.getD`; `if payload.get(key):` truthiness on a sub-object is `Option`
  presence; truthiness of a string is comparison with `""`.
* A Celery task / DRF action that raises (e.g. `objects.get` misses, or the
  database rejects an `INSERT`) is `Except.error`; since every write in the
  modelled paths happens after the point of failure or inside the same atomic
  request, an error leaves the state unchanged.
* `UnderwritingDecision.workflow` and `Property.application` are
  `OneToOneField`s, so the database holds a unique constraint on them:
  `objects.create` for a workflow that already has a decision raises
  `IntegrityError`.  `AuditTrail` `details`/`user`/`ip_address` and record ids
  are not modelled; audit rows keep event type, agent name and description in
  insertion order.
* Python `str.lower()` is `strLower`; the vocabularies it is compared against
  are ASCII, where `strLower` agrees with Python.
-/

namespace MU

/-- ASCII lowercase of one character, as Python `str.lower` acts on ASCII. -/
def lowerChar (c : Char) : Char :=
  if 65 ≤ c.toNat ∧ c.toNat ≤ 90 then Char.ofNat (c.toNat + 32) else c

/-- ASCII lowercase of a string (`str.lower()`; the strings compared against
fixed vocabularies in the source are ASCII). -/
def strLower (s : String) : String := String.mk (s.data.map lowerChar)

/-! ## Read model consumed by the snapshot builder
(`backend/applications/applications/models.py`) -/

/-- `CreditProfile` — the fields read by `prepare_application_data`. -/
structure CreditProfile where
  credit_score : Int
  bankruptcies : Int
  foreclosures : Int
  late_payments_12mo : Int
  collections_count : Int
  collections_total_amount : Rat
  deriving Repr, DecidableEq

/-- `Employment` — the fields read by `prepare_application_data`. -/
structure Employment where
  is_current : Bool
  employment_type : String
  years_employed : Option Rat
  monthly_income : Option Rat
  annual_income : Option Rat
  deriving Repr, DecidableEq

/-- `Asset` — the fields read by `prepare_application_data`. -/
structure Asset where
  asset_type : String
  current_balance : Option Rat
  deriving Repr, DecidableEq

/-- `Liability` — the fields read by `prepare_application_data`. -/
structure Liability where
  liability_type : String
  included_in_dti : Bool
  monthly_payment : Option Rat
  deriving Repr, DecidableEq

/-- `LargeDeposit` — the fields read by `prepare_application_data`;
`deposit_date` is the ISO date string. -/
structure LargeDeposit where
  amount : Option Rat
  deposit_date : Option String
  verified : Bool
  deriving Repr, DecidableEq

/-- `Borrower` with its raw PII fields and its related records
(`credit_profile` is a reverse one-to-one that may be absent). -/
structure Borrower where
  borrower_type : String
  first_name : String
  last_name : String
  middle_name : String
  ssn_encrypted : String
  ssn_last_four : String
  date_of_birth : String
  email : String
  phone : String
  street_address : String
  city : String
  state : String
  zip_code : String
  credit_profile : Option CreditProfile
  employments : List Employment
  assets : List Asset
  liabilities : List Liability
  large_deposits : List LargeDeposit
  deriving Repr, DecidableEq

/-- `Borrower.masked_ssn` property: `f"***-**-{self.ssn_last_four}"`. -/
def Borrower.masked_ssn (b : Borrower) : String :=
  "***-**-" ++ b.ssn_last_four

/-- `Property` — the fields read by `prepare_application_data`. -/
structure Property where
  property_type : String
  street_address : String
  city : String
  state : String
  year_built : Int
  square_feet : Int
  bedrooms : Int
  bathrooms : Rat
  condition : String
  purchase_price : Rat
  appraised_value : Option Rat
  hoa_monthly : Rat
  property_taxes_annual : Rat
  insurance_annual : Rat
  in_flood_zone : Bool
  deriving Repr, DecidableEq

/-- `LoanApplication` — status plus the fields read or written by the
underwriting subsystem, together with the owned read-model records. -/
structure LoanApplication where
  case_id : String
  status : String
  loan_type : String
  loan_purpose : String
  loan_amount : Rat
  down_payment : Rat
  loan_term_months : Int
  estimated_monthly_payment : Option Rat
  occupancy_type : String
  ai_recommendation : String
  ai_risk_score : Option Int
  ai_confidence_score : Option Rat
  requires_human_review : Bool
  human_review_completed : Bool
  decision_at : Option Nat
  borrowers : List Borrower
  property : Option Property
  deriving Repr, DecidableEq

/-! ## Persisted underwriting records
(`backend/applications/underwriting/models.py`) -/

/-- `UnderwritingWorkflow` — one per application.  `state_data` is the opaque
LangGraph blob (`none` is the default empty dict). -/
structure Workflow where
  status : String
  current_agent : String
  progress_percent : Int
  state_data : Option String
  started_at : Option Nat
  completed_at : Option Nat
  total_duration_seconds : Option Int
  error_message : String
  retry_count : Nat
  max_retries : Nat
  deriving Repr, DecidableEq

/-- `AgentAnalysis` row. `structured_data` is an opaque payload blob
(`none` is the default empty dict). -/
structure AgentAnalysis where
  agent_type : String
  analysis_text : String
  structured_data : Option String
  recommendation : String
  risk_factors : List String
  conditions : List String
  confidence_score : Option Rat
  processing_time_ms : Option Int
  tokens_used : Option Int
  deriving Repr, DecidableEq

/-- `UnderwritingDecision` row — at most one per workflow (one-to-one). -/
structure UnderwritingDecision where
  ai_decision : String
  ai_risk_score : Int
  ai_confidence : Rat
  decision_memo : String
  executive_summary : String
  conditions : List String
  human_override : Bool
  human_decision : String
  human_notes : String
  human_review_at : Option Nat
  final_decision : String
  deriving Repr, DecidableEq

/-- `UnderwritingDecision.save` — every write path funnels through this hook,
which recomputes `final_decision` from the override fields
(`models.py` lines 178–184): `if self.human_override and self.human_decision:`
(Python truthiness of the string is non-emptiness). -/
def UnderwritingDecision.save (d : UnderwritingDecision) : UnderwritingDecision :=
  if d.human_override = true ∧ d.human_decision ≠ "" then
    { d with final_decision := d.human_decision }
  else
    { d with final_decision := d.ai_decision }

/-- `RiskFactor` row. -/
structure RiskFactor where
  category : String
  severity : String
  description : String
  mitigation : String
  identified_by : String
  deriving Repr, DecidableEq

/-- `Condition` row (fields used by the `human_review` action). -/
structure ConditionRecord where
  condition_type : String
  status : String
  description : String
  deriving Repr, DecidableEq

/-- `AuditTrail` row — event type, agent name, human-readable description, in
insertion order (the JSON `details`, `user` and `ip_address` are dropped). -/
structure AuditEntry where
  event_type : String
  agent_name : String
  description : String
  deriving Repr, DecidableEq

/-! ## Snapshot builder (`prepare_application_data`, `tasks.py` 321–433) -/

/-- The sanitized `credit` sub-document of a borrower entry. -/
structure CreditSnapshot where
  score : Int
  bankruptcies : Int
  foreclosures : Int
  late_payments_12mo : Int
  collections_count : Int
  collections_amount : Rat
  deriving Repr, DecidableEq

/-- One `employment` entry of the snapshot. -/
structure EmploymentSnapshot where
  type : String
  years : Rat
  monthly_income : Rat
  annual_income : Rat
  deriving Repr, DecidableEq

/-- One `large_deposits` entry of the snapshot. -/
structure DepositSnapshot where
  amount : Rat
  date : String
  verified : Bool
  deriving Repr, DecidableEq

/-- One `borrowers` entry of the snapshot. -/
structure BorrowerSnapshot where
  type : String
  name : String
  ssn : String
  address : String
  credit : CreditSnapshot
  employment : List EmploymentSnapshot
  assets : List (String × Rat)
  debts : List (String × Rat)
  total_monthly_debt : Rat
  large_deposits : List DepositSnapshot
  deriving Repr, DecidableEq

/-- The `loan` sub-document of the snapshot. -/
structure LoanSnapshot where
  type : String
  purpose : String
  amount : Rat
  down_payment : Rat
  term_months : Int
  estimated_payment : Rat
  occupancy : String
  deriving Repr, DecidableEq

/-- The `property` sub-document of the snapshot. -/
structure PropertySnapshot where
  type : String
  address : String
  city : String
  state : String
  year_built : Int
  square_feet : Int
  bedrooms : Int
  bathrooms : Rat
  condition : String
  purchase_price : Rat
  appraised_value : Option Rat
  hoa_monthly : Rat
  taxes_annual : Rat
  insurance_annual : Rat
  in_flood_zone : Bool
  deriving Repr, DecidableEq

/-- The full sanitized snapshot handed to the external worker. -/
structure AppSnapshot where
  case_id : String
  loan : LoanSnapshot
  borrowers : List BorrowerSnapshot
  property : Option PropertySnapshot
  deriving Repr, DecidableEq

/-- Python dict insertion: overwrite the value at an existing key, otherwise
append (for the `assets`/`debts` dicts keyed by type). -/
def upsert (m : List (String × Rat)) (k : String) (v : Rat) : List (String × Rat) :=
  if m.any (fun p => p.1 == k) then
    m.map (fun p => if p.1 == k then (k, v) else p)
  else
    m ++ [(k, v)]

/-- The `credit` sub-document: the borrower's profile when the reverse
one-to-one exists, otherwise the all-zero fallback of the `except` branch
(`tasks.py` 350–369). -/
def creditSnapshotOf : Option CreditProfile → CreditSnapshot
  | some cp =>
    { score := cp.credit_score
      bankruptcies := cp.bankruptcies
      foreclosures := cp.foreclosures
      late_payments_12mo := cp.late_payments_12mo
      collections_count := cp.collections_count
      collections_amount := cp.collections_total_amount }
  | none =>
    { score := 0, bankruptcies := 0, foreclosures := 0
      late_payments_12mo := 0, collections_count := 0, collections_amount := 0 }

/-- One borrower entry of the snapshot (`tasks.py` 342–407): the name and
address are replaced by fixed placeholder tokens and the SSN by
`masked_ssn`; employment keeps only current records; liabilities with
`included_in_dti` feed both the `debts` dict and `total_monthly_debt`. -/
def borrowerSnapshotOf (b : Borrower) : BorrowerSnapshot :=
  { type := b.borrower_type
    name := "[APPLICANT_NAME]"
    ssn := b.masked_ssn
    address := "[ADDRESS]"
    credit := creditSnapshotOf b.credit_profile
    employment :=
      (b.employments.filter (fun e => e.is_current)).map (fun e =>
        { type := e.employment_type
          years := e.years_employed.getD 0
          monthly_income := e.monthly_income.getD 0
          annual_income := e.annual_income.getD 0 })
    assets :=
      b.assets.foldl (fun m a => upsert m a.asset_type (a.current_balance.getD 0)) []
    debts :=
      (b.liabilities.filter (fun l => l.included_in_dti)).foldl
        (fun m l => upsert m l.liability_type (l.monthly_payment.getD 0)) []
    total_monthly_debt :=
      ((b.liabilities.filter (fun l => l.included_in_dti)).map
        (fun l => l.monthly_payment.getD 0)).sum
    large_deposits :=
      b.large_deposits.map (fun d =>
        { amount := d.amount.getD 0
          date := d.deposit_date.getD ("")
          verified := d.verified }) }

/-- The `property` sub-document (`tasks.py` 409–431); the street address is
replaced by the placeholder token (city/state/details are kept). -/
def propertySnapshotOf : Option Property → Option PropertySnapshot
  | none => none
  | some p =>
    some { type := p.property_type
           address := "[ADDRESS]"
           city := p.city
           state := p.state
           year_built := p.year_built
           square_feet := p.square_feet
           bedrooms := p.bedrooms
           bathrooms := p.bathrooms
           condition := p.condition
           purchase_price := p.purchase_price
           appraised_value := p.appraised_value
           hoa_monthly := p.hoa_monthly
           taxes_annual := p.property_taxes_annual
           insurance_annual := p.insurance_annual
           in_flood_zone := p.in_flood_zone }

/-- `prepare_application_data` — the sanitized snapshot, a pure function of
the application's read model. -/
def prepare_application_data (a : LoanApplication) : AppSnapshot :=
  { case_id := a.case_id
    loan :=
      { type := a.loan_type
        purpose := a.loan_purpose
        amount := a.loan_amount
        down_payment := a.down_payment
        term_months := a.loan_term_months
        estimated_payment := a.estimated_monthly_payment.getD 0
        occupancy := a.occupancy_type }
    borrowers := a.borrowers.map borrowerSnapshotOf
    property := propertySnapshotOf a.property }

/-! ## System state

One loan application with its (at most one) workflow and the rows owned by
that workflow.  `dispatches` records each snapshot handed to the external MCP
worker by `start_underwriting_workflow`. -/

/-- The persisted state acted on by the tasks and views, for one application. -/
structure SysState where
  workflow : Option Workflow
  application : LoanApplication
  analyses : List AgentAnalysis
  decision : Option UnderwritingDecision
  risk_factors : List RiskFactor
  conditions : List ConditionRecord
  audit_trail : List AuditEntry
  dispatches : List AppSnapshot
  deriving Repr, DecidableEq

/-! ## Callback payloads (`tasks.py`) -/

/-- Payload of an `update_workflow_status` callback; `state_data := some _`
models a present truthy `state_data` member, `completed` the truthiness of
`status_data.get('completed')`. -/
structure StatusData where
  status : Option String
  current_agent : Option String
  progress_percent : Option Int
  state_data : Option String
  completed : Bool
  deriving Repr, DecidableEq

/-- Payload of an `agent_analysis` callback. -/
structure AnalysisData where
  agent_type : Option String
  analysis_text : Option String
  structured_data : Option String
  recommendation : Option String
  risk_factors : Option (List String)
  conditions : Option (List String)
  confidence_score : Option Rat
  processing_time_ms : Option Int
  tokens_used : Option Int
  deriving Repr, DecidableEq

/-- One entry of the `risk_factors` list of a `decision_made` payload:
either not a JSON object (skipped by the `isinstance(rf, dict)` guard) or an
object with optional members. -/
inductive RiskFactorPayload where
  | nonDict
  | dict (category severity description mitigation identified_by : Option String)
  deriving Repr, DecidableEq

/-- Payload of a `decision_made` callback. -/
structure DecisionData where
  decision : Option String
  risk_score : Option Int
  confidence : Option Rat
  decision_memo : Option String
  executive_summary : Option String
  conditions : Option (List String)
  risk_factors : Option (List RiskFactorPayload)
  requires_human_review : Option Bool
  deriving Repr, DecidableEq

/-- One entry of the `conditions` list accepted by `HumanReviewSerializer`. -/
structure ConditionPayload where
  type : Option String
  description : Option String
  deriving Repr, DecidableEq

/-! ## Vocabulary tables (`tasks.py` lines 13–30, 260–261, views) -/

/-- `AGENT_TYPE_MAP` — MCP agent names to model agent types. -/
def AGENT_TYPE_MAP : String → Option String
  | "credit_analyst" => some ("credit")
  | "income_analyst" => some ("income")
  | "asset_analyst" => some ("asset")
  | "collateral_analyst" => some ("collateral")
  | "critic" => some ("critic")
  | "decision" => some ("decision")
  | _ => none

/-- `DECISION_MAP` — MCP decision values to model decision choices. -/
def DECISION_MAP : String → Option String
  | "APPROVED" => some ("approved")
  | "DENIED" => some ("denied")
  | "CONDITIONAL_APPROVAL" => some ("conditional")
  | "CONDITIONAL" => some ("conditional")
  | "SUSPENDED" => some ("suspended")
  | "REFER" => some ("refer")
  | _ => none

/-- `valid_categories` (`tasks.py` line 260). -/
def VALID_CATEGORIES : List String :=
  ["credit", "income", "asset", "collateral", "compliance", "fraud"]

/-- `valid_severities` (`tasks.py` line 261). -/
def VALID_SEVERITIES : List String :=
  ["low", "medium", "high", "critical"]

/-- `status_map` used for auto-advancing the application when no human review
is required (`tasks.py` lines 293–297); `.get` default is `IN_REVIEW`. -/
def STATUS_MAP_AUTO : String → Option String
  | "approved" => some ("approved")
  | "denied" => some ("denied")
  | "conditional" => some ("conditional")
  | _ => none

/-- `status_map` of the `human_review` action (`views.py` lines 182–187);
`.get` default is `in_review`. -/
def STATUS_MAP_HUMAN : String → Option String
  | "approved" => some ("approved")
  | "denied" => some ("denied")
  | "conditional" => some ("conditional")
  | "refer" => some ("in_review")
  | _ => none

/-- `UnderwritingDecision.DecisionType.choices` — the vocabulary enforced by
`HumanReviewSerializer`'s `ChoiceField` and by the `override` action. -/
def DECISION_CHOICES : List String :=
  ["approved", "denied", "conditional", "suspended", "refer"]

/-! ## Celery tasks (`tasks.py`) -/

/-- `start_underwriting_workflow` (`tasks.py` 33–124), success path.
`get_or_create` either creates the workflow with status `initializing`,
`started_at = now` and model defaults, or reuses the existing record, setting
status `initializing`, `started_at = now` and incrementing `retry_count`
(there is no check of `retry_count` against `max_retries` anywhere in the
task).  It then appends the `workflow_started` audit entry, advances the
application to `underwriting`, and dispatches the sanitized snapshot to the
MCP worker (the snapshot is recorded in `dispatches`). -/
def start_underwriting_workflow (now : Nat) (s : SysState) : SysState :=
  let w : Workflow :=
    match s.workflow with
    | none =>
      { status := "initializing"
        current_agent := ""
        progress_percent := 0
        state_data := none
        started_at := some now
        completed_at := none
        total_duration_seconds := none
        error_message := ""
        retry_count := 0
        max_retries := 3 }
    | some w0 =>
      { w0 with
          status := "initializing"
          started_at := some now
          retry_count := w0.retry_count + 1 }
  let entry : AuditEntry :=
    { event_type := "workflow_started"
      agent_name := ""
      description := "Underwriting workflow started for " ++ s.application.case_id }
  let app := { s.application with status := "underwriting" }
  let snapshot := prepare_application_data app
  { s with
      workflow := some w
      application := app
      audit_trail := s.audit_trail ++ [entry]
      dispatches := s.dispatches ++ [snapshot] }

/-- `update_workflow_status` (`tasks.py` 127–169).  Copies status, current
agent and progress out of the payload (defaults: keep status, empty agent,
keep progress), stores `state_data` if truthy, and stamps `completed_at` and
the duration only when the payload's `completed` member is truthy.  Appends an
`agent_completed` audit entry. -/
def update_workflow_status (status_data : StatusData) (now : Nat) (s : SysState) :
    Except String SysState :=
  match s.workflow with
  | none => Except.error ("UnderwritingWorkflow.DoesNotExist")
  | some w0 =>
    let w1 :=
      { w0 with
          status := status_data.status.getD w0.status
          current_agent := status_data.current_agent.getD ("")
          progress_percent := status_data.progress_percent.getD w0.progress_percent }
    let w2 :=
      match status_data.state_data with
      | some blob => { w1 with state_data := some blob }
      | none => w1
    let w3 :=
      if status_data.completed then
        let w3a := { w2 with completed_at := some now }
        match w3a.started_at with
        | some st => { w3a with total_duration_seconds := some ((now : Int) - (st : Int)) }
        | none => w3a
      else w2
    let entry : AuditEntry :=
      { event_type := "agent_completed"
        agent_name := status_data.current_agent.getD ("")
        description := "Status updated to " ++ w3.status }
    Except.ok { s with workflow := some w3, audit_trail := s.audit_trail ++ [entry] }

/-- `save_agent_analysis` (`tasks.py` 172–223).  Normalizes the agent type
through `AGENT_TYPE_MAP` (unknown values pass through), appends the
`AgentAnalysis` row, recomputes `progress_percent` as
`min(int(completed_count / 6 * 100), 99)` over the post-insert row count
(the float truncation equals Nat division here), sets `current_agent`, and
appends an `agent_completed` audit entry. -/
def save_agent_analysis (analysis_data : AnalysisData) (s : SysState) :
    Except String SysState :=
  match s.workflow with
  | none => Except.error ("UnderwritingWorkflow.DoesNotExist")
  | some w0 =>
    let raw_type := analysis_data.agent_type.getD ("")
    let agent_type := (AGENT_TYPE_MAP raw_type).getD raw_type
    let analysis : AgentAnalysis :=
      { agent_type := agent_type
        analysis_text := analysis_data.analysis_text.getD ("")
        structured_data := analysis_data.structured_data
        recommendation := analysis_data.recommendation.getD ("")
        risk_factors := analysis_data.risk_factors.getD []
        conditions := analysis_data.conditions.getD []
        confidence_score := analysis_data.confidence_score
        processing_time_ms := analysis_data.processing_time_ms
        tokens_used := analysis_data.tokens_used }
    let analyses := s.analyses ++ [analysis]
    let completed_count := analyses.length
    let w1 :=
      { w0 with
          progress_percent := (min (completed_count * 100 / 6) 99 : Nat)
          current_agent := agent_type }
    let entry : AuditEntry :=
      { event_type := "agent_completed"
        agent_name := agent_type
        description := agent_type ++ " analysis completed" }
    Except.ok
      { s with
          workflow := some w1
          analyses := analyses
          audit_trail := s.audit_trail ++ [entry] }

/-- The risk-factor row created for one payload entry by
`save_underwriting_decision` (`tasks.py` 255–269), or `none` when the entry is
skipped (not a dict, or no truthy `description`).  Category and severity are
lowercased, then defensively replaced by `credit`/`low` when outside the
fixed vocabularies. -/
def riskFactorRowOf : RiskFactorPayload → Option RiskFactor
  | RiskFactorPayload.nonDict => none
  | RiskFactorPayload.dict cat sev desc mit idby =>
    match desc with
    | none => none
    | some d =>
      if d = "" then none
      else
        let category := strLower (cat.getD ("credit"))
        let severity := strLower (sev.getD ("low"))
        some
          { category := if VALID_CATEGORIES.contains category then category else "credit"
            severity := if VALID_SEVERITIES.contains severity then severity else "low"
            description := d
            mitigation := mit.getD ("")
            identified_by := idby.getD ("decision_agent") }

/-- `save_underwriting_decision` (`tasks.py` 226–318).  Normalizes the
decision value through `DECISION_MAP` (unknown values lowercased and passed
through), creates the `UnderwritingDecision` row — the one-to-one constraint
makes this raise `IntegrityError` when the workflow already has a decision —
creates the risk-factor rows, marks the workflow `human_review` or `completed`
(the payload's `requires_human_review` defaults to `True`), sets progress 100,
`completed_at` and the duration, updates the application's AI fields, and only
when no human review is required auto-advances the application status through
`status_map` and stamps `decision_at`.  Appends a `decision_made` audit
entry. -/
def save_underwriting_decision (decision_data : DecisionData) (now : Nat) (s : SysState) :
    Except String SysState :=
  match s.workflow with
  | none => Except.error ("UnderwritingWorkflow.DoesNotExist")
  | some w0 =>
    let raw_decision := decision_data.decision.getD ("conditional")
    let ai_decision := (DECISION_MAP raw_decision).getD (strLower raw_decision)
    if s.decision.isSome then Except.error ("IntegrityError")
    else
      let decision : UnderwritingDecision :=
        UnderwritingDecision.save
          { ai_decision := ai_decision
            ai_risk_score := decision_data.risk_score.getD 50
            ai_confidence := decision_data.confidence.getD (85 / 100)
            decision_memo := decision_data.decision_memo.getD ("")
            executive_summary := decision_data.executive_summary.getD ("")
            conditions := decision_data.conditions.getD []
            human_override := false
            human_decision := ""
            human_notes := ""
            human_review_at := none
            final_decision := "" }
      let new_rfs := (decision_data.risk_factors.getD []).filterMap riskFactorRowOf
      let requires_review := decision_data.requires_human_review.getD true
      let w1 :=
        { w0 with
            status := if requires_review then "human_review" else "completed"
            progress_percent := 100
            completed_at := some now }
      let w2 :=
        match w1.started_at with
        | some st => { w1 with total_duration_seconds := some ((now : Int) - (st : Int)) }
        | none => w1
      let app1 :=
        { s.application with
            ai_recommendation := ai_decision
            ai_risk_score := some (decision_data.risk_score.getD 50)
            ai_confidence_score := some (decision_data.confidence.getD (85 / 100))
            requires_human_review := requires_review }
      let app2 :=
        if requires_review then app1
        else
          { app1 with
              status := (STATUS_MAP_AUTO ai_decision).getD ("in_review")
              decision_at := some now }
      let entry : AuditEntry :=
        { event_type := "decision_made"
          agent_name := ""
          description :=
            "AI Decision: " ++ ai_decision ++ " (Risk Score: " ++
              toString (decision_data.risk_score.getD 50) ++ ")" }
      Except.ok
        { s with
            workflow := some w2
            application := app2
            decision := some decision
            risk_factors := s.risk_factors ++ new_rfs
            audit_trail := s.audit_trail ++ [entry] }

/-! ## View actions (`views.py`) -/

/-- Events accepted by the `callback` action (`views.py` 49–89); an
unrecognized `event_type` falls through every branch. -/
inductive CallbackEvent where
  | workflow_started (status : Option String)
  | agent_analysis (data : AnalysisData)
  | decision_made (data : DecisionData)
  | workflow_failed (error : Option String)
  | other (event_type : String)
  deriving Repr, DecidableEq

/-- The `callback` action.  `workflow_started` copies the status out of the
payload (default `initializing`); `agent_analysis` and `decision_made` enqueue
the corresponding task (applied here directly — the spec's per-workflow
serialization); `workflow_failed` marks the workflow failed with
`completed_at = now`, reverts the application to `submitted` and appends an
`error` audit entry.  No branch checks the workflow's current status. -/
def callback (ev : CallbackEvent) (now : Nat) (s : SysState) : Except String SysState :=
  match s.workflow with
  | none => Except.error ("Http404")
  | some w0 =>
    match ev with
    | CallbackEvent.workflow_started st =>
      Except.ok { s with workflow := some { w0 with status := st.getD ("initializing") } }
    | CallbackEvent.agent_analysis data => save_agent_analysis data s
    | CallbackEvent.decision_made data => save_underwriting_decision data now s
    | CallbackEvent.workflow_failed err =>
      let w1 :=
        { w0 with
            status := "failed"
            error_message := err.getD ("Unknown error")
            completed_at := some now }
      let entry : AuditEntry :=
        { event_type := "error"
          agent_name := ""
          description := "Workflow failed: " ++ w1.error_message }
      Except.ok
        { s with
            workflow := some w1
            application := { s.application with status := "submitted" }
            audit_trail := s.audit_trail ++ [entry] }
    | CallbackEvent.other _ => Except.ok s

/-- The `cancel` action (`views.py` 112–136).  The guard rejects only the
statuses `completed` and `cancelled`; otherwise the workflow is marked
`cancelled` with `completed_at = now` and an `error`-type audit entry is
appended. -/
def cancel (now : Nat) (s : SysState) : Except String SysState :=
  match s.workflow with
  | none => Except.error ("Http404")
  | some w0 =>
    if w0.status = "completed" ∨ w0.status = "cancelled" then
      Except.error ("Workflow cannot be cancelled")
    else
      let w1 := { w0 with status := "cancelled", completed_at := some now }
      let entry : AuditEntry :=
        { event_type := "error"
          agent_name := ""
          description := "Workflow cancelled by user" }
      Except.ok
        { s with workflow := some w1, audit_trail := s.audit_trail ++ [entry] }

/-- The `human_review` action (`views.py` 138–209).  The serializer's
`ChoiceField` rejects decisions outside the vocabulary; the action then
requires an existing decision, sets the override fields and re-saves the
decision (recomputing `final_decision`), creates any supplied conditions,
marks the workflow `completed` with `completed_at = now`, maps the human
decision onto the application status, and appends a `human_review` audit
entry. -/
def human_review (decision_value : String) (notes : String)
    (conds : Option (List ConditionPayload)) (now : Nat) (s : SysState) :
    Except String SysState :=
  match s.workflow with
  | none => Except.error ("Http404")
  | some w0 =>
    if ¬ DECISION_CHOICES.contains decision_value then
      Except.error ("ValidationError")
    else
      match s.decision with
      | none => Except.error ("No AI decision exists to review")
      | some d0 =>
        let d1 :=
          UnderwritingDecision.save
            { d0 with
                human_override := true
                human_decision := decision_value
                human_notes := notes
                human_review_at := some now }
        let new_conditions :=
          (conds.getD []).map (fun c =>
            ({ condition_type := c.type.getD ("prior_to_funding")
               status := "pending"
               description := c.description.getD ("") } : ConditionRecord))
        let w1 := { w0 with status := "completed", completed_at := some now }
        let app1 :=
          { s.application with
              status := (STATUS_MAP_HUMAN decision_value).getD ("in_review")
              human_review_completed := true
              decision_at := some now }
        let entry : AuditEntry :=
          { event_type := "human_review"
            agent_name := ""
            description := "Human review completed: " ++ decision_value }
        Except.ok
          { s with
              workflow := some w1
              decision := some d1
              conditions := s.conditions ++ new_conditions
              application := app1
              audit_trail := s.audit_trail ++ [entry] }

/-- The `override` action of `UnderwritingDecisionViewSet` (`views.py`
291–327).  Rejects decisions outside the vocabulary, otherwise sets the
override fields and re-saves the decision (recomputing `final_decision`) and
appends an `override` audit entry; workflow and application are untouched. -/
def override_decision (new_decision : String) (notes : String) (now : Nat)
    (s : SysState) : Except String SysState :=
  match s.decision with
  | none => Except.error ("Http404")
  | some d0 =>
    if ¬ DECISION_CHOICES.contains new_decision then
      Except.error ("Invalid decision type")
    else
      let d1 :=
        UnderwritingDecision.save
          { d0 with
              human_override := true
              human_decision := new_decision
              human_notes := notes
              human_review_at := some now }
      let entry : AuditEntry :=
        { event_type := "override"
          agent_name := ""
          description := "Decision overridden from " ++ d0.ai_decision ++ " to " ++ new_decision }
      Except.ok
        { s with decision := some d1, audit_trail := s.audit_trail ++ [entry] }

/-! ## The specification's wording of the progress formula -/

/-- The progress formula as the specification words it (§4.3):
`min(99, round(completedStageCount / totalStages * 100))` with 6 stages and
round-to-nearest (half up): `round(n/6 * 100) = (200 n + 6) / 12` in `Nat`.
Stated only to be compared against the computation in
`save_agent_analysis`. -/
def specProgressPercent (completedStageCount : Nat) : Nat :=
  min 99 ((completedStageCount * 100 * 2 + 6) / 12)

/-! ## Concrete fixtures

A small concrete application and the states reached from it by concrete
operation sequences; used by the counterexamples and witnesses below. -/

/-- Unwrap a task/action result, falling back to a default state on error. -/
def okState (r : Except String SysState) (d : SysState) : SysState :=
  match r with
  | Except.ok s => s
  | Except.error _ => d

/-- Fallback workflow record for `Option.getD` projections in fixtures. -/
def fallbackWorkflow : Workflow :=
  { status := "pending", current_agent := "", progress_percent := 0
    state_data := none, started_at := none, completed_at := none
    total_duration_seconds := none, error_message := ""
    retry_count := 0, max_retries := 3 }

/-- Fallback decision record for `Option.getD` projections in fixtures. -/
def fallbackDecision : UnderwritingDecision :=
  { ai_decision := "", ai_risk_score := 0, ai_confidence := 0
    decision_memo := "", executive_summary := "", conditions := []
    human_override := false, human_decision := "", human_notes := ""
    human_review_at := none, final_decision := "" }

/-- A borrower with minimal related records (credit profile absent, no
employment/assets/liabilities/deposits) and raw PII in every PII field. -/
def minimalBorrower : Borrower :=
  { borrower_type := "primary"
    first_name := "Jane"
    last_name := "Doe"
    middle_name := ""
    ssn_encrypted := "encrypted-ssn-blob"
    ssn_last_four := "1234"
    date_of_birth := "1980-01-01"
    email := "jane.doe@example.com"
    phone := "5550101"
    street_address := "1 Main St"
    city := "Springfield"
    state := "IL"
    zip_code := "62701"
    credit_profile := none
    employments := []
    assets := []
    liabilities := []
    large_deposits := [] }

/-- A submitted test application with one borrower and no property record. -/
def testApplication : LoanApplication :=
  { case_id := "CASE-1"
    status := "submitted"
    loan_type := "conventional"
    loan_purpose := "purchase"
    loan_amount := 300000
    down_payment := 60000
    loan_term_months := 360
    estimated_monthly_payment := none
    occupancy_type := "primary"
    ai_recommendation := ""
    ai_risk_score := none
    ai_confidence_score := none
    requires_human_review := false
    human_review_completed := false
    decision_at := none
    borrowers := [minimalBorrower]
    property := none }

/-- The store before any underwriting activity. -/
def initialState : SysState :=
  { workflow := none
    application := testApplication
    analyses := []
    decision := none
    risk_factors := []
    conditions := []
    audit_trail := []
    dispatches := [] }

/-- An `agent_analysis` payload carrying only the agent type. -/
def analysisPayload (t : String) : AnalysisData :=
  { agent_type := some t
    analysis_text := none
    structured_data := none
    recommendation := none
    risk_factors := none
    conditions := none
    confidence_score := none
    processing_time_ms := none
    tokens_used := none }

/-- A `decision_made` payload that omits `requires_human_review`. -/
def basicDecision : DecisionData :=
  { decision := some ("APPROVED")
    risk_score := some 72
    confidence := none
    decision_memo := none
    executive_summary := none
    conditions := none
    risk_factors := none
    requires_human_review := none }

/-- A risk-factor payload entry with an unnormalized category and an invalid
severity. -/
def rfExtreme : RiskFactorPayload :=
  RiskFactorPayload.dict (some ("Income")) (some ("extreme")) (some ("High DTI"))
    none none

/-- A `decision_made` payload carrying the `rfExtreme` risk factor. -/
def decisionWithRF : DecisionData :=
  { decision := some ("DENIED")
    risk_score := none
    confidence := none
    decision_memo := none
    executive_summary := none
    conditions := none
    risk_factors := some [rfExtreme]
    requires_human_review := none }

/-- State after `start_underwriting_workflow` at time 0. -/
def s_started : SysState := start_underwriting_workflow 0 initialState

/-- State after a `decision_made` callback (`basicDecision`) at time 5. -/
def s_decided : SysState :=
  okState (save_underwriting_decision basicDecision 5 s_started) initialState

/-- State after a `workflow_failed` callback at time 3. -/
def s_failed : SysState :=
  okState (callback (CallbackEvent.workflow_failed none) 3 s_started) initialState

/-- State after `cancel` at time 2. -/
def s_cancelled : SysState := okState (cancel 2 s_started) initialState

/-- State after ten further `start_underwriting_workflow` invocations: the
workflow's `retry_count` is 10, well past `max_retries = 3`. -/
def s_manyRetries : SysState :=
  (List.range 10).foldl (fun st _ => start_underwriting_workflow 1 st) s_started

/-- States after one to six `agent_analysis` callbacks with distinct agent
types. -/
def sA1 : SysState :=
  okState (save_agent_analysis (analysisPayload ("credit_analyst")) s_started) initialState

/-- Two analyses applied. -/
def sA2 : SysState :=
  okState (save_agent_analysis (analysisPayload ("income_analyst")) sA1) initialState

/-- Three analyses applied. -/
def sA3 : SysState :=
  okState (save_agent_analysis (analysisPayload ("asset_analyst")) sA2) initialState

/-- Four analyses applied. -/
def sA4 : SysState :=
  okState (save_agent_analysis (analysisPayload ("collateral_analyst")) sA3) initialState

/-- Five analyses applied. -/
def sA5 : SysState :=
  okState (save_agent_analysis (analysisPayload ("critic")) sA4) initialState

/-- Six analyses applied. -/
def sA6 : SysState :=
  okState (save_agent_analysis (analysisPayload ("decision")) sA5) initialState

/-- State after a `decision_made` callback carrying the `rfExtreme` risk
factor. -/
def s_rf : SysState :=
  okState (save_underwriting_decision decisionWithRF 4 s_started) initialState

/-- State after a human `override_decision` on `s_decided` at time 9. -/
def s_overridden : SysState :=
  okState (override_decision ("denied") ("dti too high") 9 s_decided) initialState

/-! ## Shared invariants and helper lemmas -/

/-- The decision-consistency invariant: `final_decision` equals
`human_decision` whenever the override flag is set and `human_decision` is
non-empty, else `ai_decision`. -/
def finalDecisionConsistent (d : UnderwritingDecision) : Prop :=
  d.final_decision =
    if d.human_override = true ∧ d.human_decision ≠ "" then d.human_decision
    else d.ai_decision

/-- Every record produced by `UnderwritingDecision.save` satisfies the
decision-consistency invariant. -/
theorem save_finalDecisionConsistent (d : UnderwritingDecision) :
    finalDecisionConsistent (UnderwritingDecision.save d) := by
  by_cases h : d.human_override = true ∧ d.human_decision ≠ "" <;>
    simp [UnderwritingDecision.save, finalDecisionConsistent, h]

/-! ## Claim C1 — duplicate `decision_made` -/

/-- **C1** (counterexample): the claim says a second `decision_made` for a
workflow that already has a Decision "is a no-op on workflow status besides an
audit entry: the ingestion detects the existing Decision and ignores the
duplicate".  On the reachable state `s_decided` (start, then one
`decision_made`), re-applying the callback does not append an audit entry and
is not ignored: `save_underwriting_decision` blindly `create`s and the
one-to-one constraint raises `IntegrityError`. -/
theorem C1_counterexample :
    save_underwriting_decision basicDecision 6 s_decided = Except.error ("IntegrityError")
    ∧ s_decided.decision.isSome = true
    ∧ s_decided.audit_trail.length = 2 :=
  ⟨rfl, by decide, by decide⟩

/-- **C1** (amended): for every workflow that already has an
`UnderwritingDecision`, applying `save_underwriting_decision` again fails with
`IntegrityError` — the second `INSERT` is rejected by the one-to-one
constraint, so exactly one Decision row remains and the workflow record is
untouched, but no audit entry is appended and the duplicate is not
detected-and-ignored by the ingestion itself. -/
theorem C1_duplicate_decision_raises (s : SysState) (dd : DecisionData) (now : Nat)
    (hw : s.workflow.isSome = true) (hd : s.decision.isSome = true) :
    save_underwriting_decision dd now s = Except.error ("IntegrityError") := by
  cases hwf : s.workflow with
  | none => rw [hwf] at hw; cases hw
  | some w =>
    unfold save_underwriting_decision
    rw [hwf]
    simp [hd]

/-- Witness for C1: the amended theorem applied to the concrete state
`s_decided`. -/
theorem C1_duplicate_decision_raises_witness :
    save_underwriting_decision basicDecision 6 s_decided = Except.error ("IntegrityError") :=
  C1_duplicate_decision_raises s_decided basicDecision 6 (by decide) (by decide)

/-! ## Claim C2 — `completed_at` versus terminal status -/

/-- **C2** (counterexample): the claim says `completed_at` is non-null iff
the status is `completed`, `failed` or `cancelled`.  The state `s_decided` is
reachable by Start followed by one `decision_made` callback (whose payload
omits `requires_human_review`, hence defaults to requiring review): its status
is `human_review` — not terminal — yet `completed_at` is set. -/
theorem C2_counterexample :
    s_decided.workflow.map (fun w => (w.status, w.completed_at)) =
      some (("human_review"), some 5)
    ∧ ("human_review" ∉ (["completed", "failed", "cancelled"] : List String)) :=
  ⟨by decide, by decide⟩

/-- **C2** (amended): the biconditional does not hold; what the code
guarantees per operation is — `cancel`, `save_underwriting_decision` and
`human_review` always stamp `completed_at = now` on success (even when the
resulting status is the non-terminal `human_review`);
`update_workflow_status` stamps it exactly when the payload's `completed`
member is truthy (regardless of the status string it installs);
`save_agent_analysis` preserves it; and `start_underwriting_workflow` never
clears it (so a restarted failed workflow keeps its stale `completed_at`). -/
theorem C2_completed_at_per_operation (s : SysState) (now : Nat) (w : Workflow)
    (hw : s.workflow = some w) :
    (∀ s1, cancel now s = Except.ok s1 →
      s1.workflow.map Workflow.completed_at = some (some now))
    ∧ (∀ dd s1, save_underwriting_decision dd now s = Except.ok s1 →
      s1.workflow.map Workflow.completed_at = some (some now))
    ∧ (∀ dv nts cs s1, human_review dv nts cs now s = Except.ok s1 →
      s1.workflow.map Workflow.completed_at = some (some now))
    ∧ (∀ sd s1, update_workflow_status sd now s = Except.ok s1 →
      s1.workflow.map Workflow.completed_at =
        some (if sd.completed then some now else w.completed_at))
    ∧ (∀ ad s1, save_agent_analysis ad s = Except.ok s1 →
      s1.workflow.map Workflow.completed_at = some w.completed_at)
    ∧ (start_underwriting_workflow now s).workflow.map Workflow.completed_at =
        some w.completed_at := by
  refine ⟨?_, ?_, ?_, ?_, ?_, ?_⟩
  · intro s1 hok
    unfold cancel at hok
    rw [hw] at hok
    simp only at hok
    split at hok
    · cases hok
    · injection hok with h
      subst h
      rfl
  · intro dd s1 hok
    unfold save_underwriting_decision at hok
    rw [hw] at hok
    simp only at hok
    split at hok
    · cases hok
    · injection hok with h
      subst h
      cases hst : w.started_at <;> simp [hst]
  · intro dv nts cs s1 hok
    unfold human_review at hok
    rw [hw] at hok
    simp only at hok
    split at hok
    · cases hok
    · split at hok
      · cases hok
      · injection hok with h
        subst h
        rfl
  · intro sd s1 hok
    unfold update_workflow_status at hok
    rw [hw] at hok
    simp only at hok
    injection hok with h
    subst h
    cases hc : sd.completed <;>
      cases hsd : sd.state_data <;>
        cases hst : w.started_at <;>
          simp [hc, hsd, hst]
  · intro ad s1 hok
    unfold save_agent_analysis at hok
    rw [hw] at hok
    injection hok with h
    subst h
    rfl
  · unfold start_underwriting_workflow
    rw [hw]
    rfl

/-- Witness for C2: the Start conjunct applied on the concrete started state —
the restart at time 3 leaves `completed_at` untouched (`none` here). -/
theorem C2_completed_at_per_operation_witness :
    (start_underwriting_workflow 3 s_started).workflow.map Workflow.completed_at =
      some none :=
  (C2_completed_at_per_operation s_started 3
    (s_started.workflow.getD fallbackWorkflow) rfl).2.2.2.2.2

/-! ## Claim C3 — `final_decision` consistency after every write -/

/-- **C3** (confirmed): immediately after every write path of an
`UnderwritingDecision` — creation by `save_underwriting_decision`, the
`human_review` action, or the `override` action — `final_decision` equals
`human_decision` whenever `human_override` is true and `human_decision` is
non-empty, and otherwise equals `ai_decision` (every path funnels through
`UnderwritingDecision.save`). -/
theorem C3_final_decision_consistent_after_write (s : SysState) (now : Nat) :
    (∀ dd s1 d, save_underwriting_decision dd now s = Except.ok s1 →
      s1.decision = some d → finalDecisionConsistent d)
    ∧ (∀ dv nts cs s1 d, human_review dv nts cs now s = Except.ok s1 →
      s1.decision = some d → finalDecisionConsistent d)
    ∧ (∀ nd nts s1 d, override_decision nd nts now s = Except.ok s1 →
      s1.decision = some d → finalDecisionConsistent d) := by
  refine ⟨?_, ?_, ?_⟩
  · intro dd s1 d hok hdec
    unfold save_underwriting_decision at hok
    split at hok
    · cases hok
    · split at hok
      · cases hok
      · injection hok with h
        subst h
        simp only at hdec
        injection hdec with h
        subst h
        exact save_finalDecisionConsistent _
  · intro dv nts cs s1 d hok hdec
    unfold human_review at hok
    split at hok
    · cases hok
    · split at hok
      · cases hok
      · split at hok
        · cases hok
        · injection hok with h
          subst h
          simp only at hdec
          injection hdec with h
          subst h
          exact save_finalDecisionConsistent _
  · intro nd nts s1 d hok hdec
    unfold override_decision at hok
    split at hok
    · cases hok
    · split at hok
      · cases hok
      · injection hok with h
        subst h
        simp only at hdec
        injection hdec with h
        subst h
        exact save_finalDecisionConsistent _

/-- Witness for C3: the override path applied on the concrete state
`s_decided`, yielding the decision stored in `s_overridden`. -/
theorem C3_final_decision_consistent_after_write_witness :
    finalDecisionConsistent (s_overridden.decision.getD fallbackDecision) :=
  (C3_final_decision_consistent_after_write s_decided 9).2.2
    ("denied") ("dti too high") s_overridden
    (s_overridden.decision.getD fallbackDecision) rfl rfl

/-! ## Claim C4 — the cancel guard -/

/-- **C4** (counterexample): the claim says Cancel fails with
`InvalidTransition` from every terminal status — including `failed`.  On the
reachable state `s_failed` (start, then a `workflow_failed` callback) the
status is the terminal `failed`, yet `cancel` succeeds and moves the workflow
to `cancelled`: the guard checks only `completed` and `cancelled`. -/
theorem C4_counterexample :
    s_failed.workflow.map Workflow.status = some ("failed")
    ∧ (cancel 4 s_failed).toOption.isSome = true
    ∧ (okState (cancel 4 s_failed) initialState).workflow.map Workflow.status =
        some ("cancelled") :=
  ⟨by decide, by decide, by decide⟩

/-- **C4** (amended): `cancel` fails — leaving every field unchanged, the
rejection happening before any write — exactly when the status is `completed`
or `cancelled`; from every other status (including the terminal `failed`) it
succeeds, sets status `cancelled` and `completed_at = now`, and appends an
audit entry. -/
theorem C4_cancel_guard (s : SysState) (now : Nat) (w : Workflow)
    (hw : s.workflow = some w) :
    (w.status = "completed" ∨ w.status = "cancelled" →
      cancel now s = Except.error ("Workflow cannot be cancelled"))
    ∧ (w.status ≠ "completed" → w.status ≠ "cancelled" →
      cancel now s = Except.ok
        { s with
            workflow := some { w with status := "cancelled", completed_at := some now }
            audit_trail := s.audit_trail ++
              [{ event_type := "error", agent_name := ""
                 description := "Workflow cancelled by user" }] }) := by
  constructor
  · intro hterm
    simp only [cancel, hw]
    rw [if_pos hterm]
  · intro h1 h2
    simp only [cancel, hw]
    rw [if_neg (fun hc => hc.elim h1 h2)]

/-- Witness for C4: the success branch of the amended theorem applied on the
concrete failed state. -/
theorem C4_cancel_guard_witness :
    (cancel 4 s_failed).toOption.map (fun st => st.workflow.map Workflow.status) =
      some (some ("cancelled")) := by
  have h := (C4_cancel_guard s_failed 4 (s_failed.workflow.getD fallbackWorkflow) rfl).2
    (by decide) (by decide)
  rw [h]
  rfl

/-! ## Claim C6 — the retry limit -/

/-- **C6** (counterexample): the claim says Start fails with
`RetryLimitExceeded` (without dispatching) whenever
`retry_count > max_retries`.  On the reachable state `s_manyRetries` the
workflow has `retry_count = 10 > max_retries = 3`, yet
`start_underwriting_workflow` — a total function, no retry-limit check exists
in the task — increments the count to 11 and still dispatches to the external
worker. -/
theorem C6_counterexample :
    s_manyRetries.workflow.map Workflow.retry_count = some 10
    ∧ s_manyRetries.workflow.map Workflow.max_retries = some 3
    ∧ 3 < (10 : Nat)
    ∧ (start_underwriting_workflow 11 s_manyRetries).workflow.map Workflow.retry_count =
        some 11
    ∧ (start_underwriting_workflow 11 s_manyRetries).dispatches.length =
        s_manyRetries.dispatches.length + 1 :=
  ⟨by decide, by decide, by decide, by decide, by decide⟩

/-- **C6** (amended): when Start runs for an application whose workflow record
already exists, `retry_count` is incremented and the workflow reset to
`initializing` — but there is no `RetryLimitExceeded` failure: the task never
consults `max_retries` and always dispatches the sanitized snapshot to the
external worker, whatever `retry_count` is. -/
theorem C6_start_increments_and_always_dispatches (s : SysState) (now : Nat)
    (w : Workflow) (hw : s.workflow = some w) :
    (start_underwriting_workflow now s).workflow =
      some { w with
               status := "initializing"
               started_at := some now
               retry_count := w.retry_count + 1 }
    ∧ (start_underwriting_workflow now s).dispatches =
      s.dispatches ++
        [prepare_application_data { s.application with status := "underwriting" }] := by
  refine ⟨?_, ?_⟩ <;> simp only [start_underwriting_workflow, hw]

/-- Witness for C6: the amended theorem applied on the concrete state with
`retry_count = 10`. -/
theorem C6_start_increments_and_always_dispatches_witness :
    (start_underwriting_workflow 11 s_manyRetries).workflow =
      some { (s_manyRetries.workflow.getD fallbackWorkflow) with
               status := "initializing"
               started_at := some 11
               retry_count := (s_manyRetries.workflow.getD fallbackWorkflow).retry_count + 1 } :=
  (C6_start_increments_and_always_dispatches s_manyRetries 11
    (s_manyRetries.workflow.getD fallbackWorkflow) rfl).1

/-! ## Claim C5 — the progress formula -/

/-- The truncated progress formula `min(count * 100 / 6, 99)` is monotone in
the analysis count. -/
theorem progress_formula_mono {m n : Nat} (h : m ≤ n) :
    (min (m * 100 / 6) 99 : Nat) ≤ min (n * 100 / 6) 99 :=
  min_le_min (Nat.div_le_div_right (Nat.mul_le_mul_right 100 h)) le_rfl

/-- **C5** (counterexample): the claim words the recomputation as
`min(99, round(completedStageCount / 6 * 100))`; after a single
`agent_analysis` callback the code stores 16 (Python `int()` truncation of
16.66…), while the claimed round-to-nearest formula gives 17. -/
theorem C5_counterexample :
    sA1.workflow.map Workflow.progress_percent = some 16
    ∧ specProgressPercent 1 = 17 :=
  ⟨by decide, by decide⟩

/-- Helper: one successful `save_agent_analysis` stores the truncated
progress formula over the post-insert row count and grows the analysis list
by one. -/
theorem save_agent_analysis_progress (s : SysState) (ad : AnalysisData)
    (s1 : SysState) (w1 : Workflow)
    (hok : save_agent_analysis ad s = Except.ok s1) (hw1 : s1.workflow = some w1) :
    w1.progress_percent = ((min ((s.analyses.length + 1) * 100 / 6) 99 : Nat) : Int)
    ∧ s1.analyses.length = s.analyses.length + 1 := by
  unfold save_agent_analysis at hok
  split at hok
  · cases hok
  · injection hok with h
    subst h
    simp only at hw1
    injection hw1 with h1
    subst h1
    exact ⟨by simp, by simp⟩

/-- **C5** (amended): each `agent_analysis` callback recomputes
`progress_percent` as the truncated `min(⌊completedStageCount / 6 * 100⌋, 99)`
over the post-insert row count (not round-to-nearest); across consecutive
`agent_analysis` callbacks the stored progress is monotonically
non-decreasing and never exceeds 99; `save_underwriting_decision` is what
sets progress to exactly 100; and six distinct-agent callbacks from a fresh
start yield the successive values 16, 33, 50, 66, 83, 99. -/
theorem C5_progress_truncated_monotone_capped :
    (∀ s ad s1 w1, save_agent_analysis ad s = Except.ok s1 → s1.workflow = some w1 →
      w1.progress_percent = ((min ((s.analyses.length + 1) * 100 / 6) 99 : Nat) : Int)
      ∧ s1.analyses.length = s.analyses.length + 1)
    ∧ (∀ s ad ad2 s1 s2 w1 w2,
        save_agent_analysis ad s = Except.ok s1 →
        save_agent_analysis ad2 s1 = Except.ok s2 →
        s1.workflow = some w1 → s2.workflow = some w2 →
        w1.progress_percent ≤ w2.progress_percent)
    ∧ (∀ s ad s1 w1, save_agent_analysis ad s = Except.ok s1 → s1.workflow = some w1 →
      w1.progress_percent ≤ 99)
    ∧ (∀ s dd now s1 w1, save_underwriting_decision dd now s = Except.ok s1 →
      s1.workflow = some w1 → w1.progress_percent = 100)
    ∧ ([sA1, sA2, sA3, sA4, sA5, sA6].map
        (fun st => st.workflow.map Workflow.progress_percent) =
        [some 16, some 33, some 50, some 66, some 83, some 99]) := by
  refine ⟨?_, ?_, ?_, ?_, by decide⟩
  · intro s ad s1 w1 hok hw1
    exact save_agent_analysis_progress s ad s1 w1 hok hw1
  · intro s ad ad2 s1 s2 w1 w2 hok1 hok2 hw1 hw2
    obtain ⟨h1p, h1l⟩ := save_agent_analysis_progress s ad s1 w1 hok1 hw1
    obtain ⟨h2p, _⟩ := save_agent_analysis_progress s1 ad2 s2 w2 hok2 hw2
    rw [h1p, h2p, h1l, Nat.cast_le]
    exact progress_formula_mono (by omega)
  · intro s ad s1 w1 hok hw1
    obtain ⟨h1p, _⟩ := save_agent_analysis_progress s ad s1 w1 hok hw1
    rw [h1p]
    exact_mod_cast min_le_right _ 99
  · intro s dd now s1 w1 hok hw1
    unfold save_underwriting_decision at hok
    split at hok
    · cases hok
    · split at hok
      · cases hok
      · rename_i w0 heq hdec
        injection hok with h
        subst h
        simp only at hw1
        injection hw1 with h1
        subst h1
        cases hst : w0.started_at <;> simp [hst]

/-- Witness for C5: the per-callback formula conjunct applied on the concrete
second callback. -/
theorem C5_progress_truncated_monotone_capped_witness :
    (sA2.workflow.getD fallbackWorkflow).progress_percent =
      ((min ((sA1.analyses.length + 1) * 100 / 6) 99 : Nat) : Int)
    ∧ sA2.analyses.length = sA1.analyses.length + 1 :=
  C5_progress_truncated_monotone_capped.1 sA1 (analysisPayload ("income_analyst")) sA2
    (sA2.workflow.getD fallbackWorkflow) rfl rfl

/-! ## Claim C7 — callbacks after cancellation -/

/-- **C7** (counterexample): the claim says a callback arriving for a
cancelled workflow leaves its status unchanged.  On the reachable state
`s_cancelled` (start, then `cancel`), a `decision_made` callback succeeds and
moves the workflow to `human_review` — re-activating it. -/
theorem C7_counterexample :
    s_cancelled.workflow.map Workflow.status = some ("cancelled")
    ∧ (okState (save_underwriting_decision basicDecision 3 s_cancelled)
        initialState).workflow.map Workflow.status = some ("human_review") :=
  ⟨by decide, by decide⟩

/-- **C7** (amended): no path checks for a terminal status, so callbacks
arriving after cancellation are applied with their usual effects: a
`decision_made` moves the cancelled workflow to `human_review`/`completed`
(never back to `cancelled`) and appends an audit entry; an `agent_analysis`
keeps the status but still appends an audit entry; an
`update_workflow_status` installs whatever status the payload carries and
appends an audit entry; a `workflow_started` callback resets the status to
the payload's status (default `initializing`). -/
theorem C7_no_terminal_guard (s : SysState) (now : Nat) (w : Workflow)
    (hw : s.workflow = some w) (hc : w.status = "cancelled") :
    (∀ dd s1 w1, save_underwriting_decision dd now s = Except.ok s1 →
      s1.workflow = some w1 →
      w1.status =
        (if dd.requires_human_review.getD true then "human_review" else "completed")
      ∧ w1.status ≠ "cancelled"
      ∧ s1.audit_trail.length = s.audit_trail.length + 1)
    ∧ (∀ ad s1 w1, save_agent_analysis ad s = Except.ok s1 → s1.workflow = some w1 →
      w1.status = "cancelled" ∧ s1.audit_trail.length = s.audit_trail.length + 1)
    ∧ (∀ sd s1 w1, update_workflow_status sd now s = Except.ok s1 →
      s1.workflow = some w1 →
      w1.status = sd.status.getD ("cancelled")
      ∧ s1.audit_trail.length = s.audit_trail.length + 1)
    ∧ (∀ st s1 w1, callback (CallbackEvent.workflow_started st) now s = Except.ok s1 →
      s1.workflow = some w1 → w1.status = st.getD ("initializing")) := by
  refine ⟨?_, ?_, ?_, ?_⟩
  · intro dd s1 w1 hok hw1
    unfold save_underwriting_decision at hok
    rw [hw] at hok
    simp only at hok
    split at hok
    · cases hok
    · injection hok with h
      subst h
      simp only at hw1
      cases hst : w.started_at <;> rw [hst] at hw1 <;> simp only at hw1 <;>
        injection hw1 with h1 <;> subst h1 <;>
        exact ⟨rfl, by split <;> simp, by simp⟩
  · intro ad s1 w1 hok hw1
    unfold save_agent_analysis at hok
    rw [hw] at hok
    simp only at hok
    injection hok with h
    subst h
    simp only at hw1
    injection hw1 with h1
    subst h1
    exact ⟨hc, by simp⟩
  · intro sd s1 w1 hok hw1
    unfold update_workflow_status at hok
    rw [hw] at hok
    simp only at hok
    injection hok with h
    subst h
    simp only at hw1
    cases hsd : sd.state_data <;> rw [hsd] at hw1 <;>
      cases hcp : sd.completed <;> rw [hcp] at hw1 <;>
        simp only [Bool.false_eq_true, if_false, if_true] at hw1
    case none.false =>
      injection hw1 with h1
      subst h1
      exact ⟨by rw [hc], by simp⟩
    case none.true =>
      cases hst : w.started_at <;> rw [hst] at hw1 <;> simp only at hw1 <;>
        injection hw1 with h1 <;> subst h1 <;> exact ⟨by rw [hc], by simp⟩
    case some.false =>
      injection hw1 with h1
      subst h1
      exact ⟨by rw [hc], by simp⟩
    case some.true =>
      cases hst : w.started_at <;> rw [hst] at hw1 <;> simp only at hw1 <;>
        injection hw1 with h1 <;> subst h1 <;> exact ⟨by rw [hc], by simp⟩
  · intro st s1 w1 hok hw1
    unfold callback at hok
    rw [hw] at hok
    simp only at hok
    injection hok with h
    subst h
    simp only at hw1
    injection hw1 with h1
    subst h1
    rfl

/-- The state reached by a `decision_made` callback on the cancelled
workflow. -/
def s_zombie : SysState :=
  okState (save_underwriting_decision basicDecision 3 s_cancelled) initialState

/-- Witness for C7: the `decision_made` conjunct applied on the concrete
cancelled state. -/
theorem C7_no_terminal_guard_witness :
    (s_zombie.workflow.getD fallbackWorkflow).status =
      (if basicDecision.requires_human_review.getD true then "human_review"
       else "completed")
    ∧ (s_zombie.workflow.getD fallbackWorkflow).status ≠ "cancelled"
    ∧ s_zombie.audit_trail.length = s_cancelled.audit_trail.length + 1 :=
  (C7_no_terminal_guard s_cancelled 3 (s_cancelled.workflow.getD fallbackWorkflow)
    rfl (by decide)).1 basicDecision s_zombie
    (s_zombie.workflow.getD fallbackWorkflow) rfl rfl

/-! ## Claim C8 — risk-factor vocabulary defaulting -/

/-- **C8** (counterexample): the claim says the created RiskFactor's category
"is the payload category when it belongs to
`\x7bcredit, income, asset, collateral, compliance, fraud\x7d` and `credit`
otherwise".  The payload category `"Income"` does not belong to that
vocabulary, so the claim predicts `credit` — but the code lowercases before
checking and stores `income`.  (The `severity="extreme"` part of the payload
is indeed defaulted to `low`, and the entry is not rejected.) -/
theorem C8_counterexample :
    s_rf.risk_factors =
      [{ category := "income", severity := "low", description := "High DTI"
         mitigation := "", identified_by := "decision_agent" }]
    ∧ ("Income" ∉ VALID_CATEGORIES)
    ∧ ("income" : String) ≠ "credit" :=
  ⟨by decide, by decide, by decide⟩

/-- **C8** (amended): for every risk-factor entry of a `decision_made`
payload that is a dict with a truthy description, the created RiskFactor's
category is the **lowercased** payload category when that lowercased form
belongs to the fixed vocabulary and `credit` otherwise, and its severity is
the lowercased payload severity when that belongs to the severity vocabulary
and `low` otherwise (so `severity="extreme"` yields `low` rather than a
rejection); the stored values always lie in the vocabularies, and
`save_underwriting_decision` appends exactly the rows produced this way. -/
theorem C8_risk_factor_normalized (cat sev desc mit idby : Option String)
    (d : String) (hdesc : desc = some d) (hne : d ≠ "") :
    (∃ rf, riskFactorRowOf (RiskFactorPayload.dict cat sev desc mit idby) = some rf
      ∧ rf.category =
          (if VALID_CATEGORIES.contains (strLower (cat.getD ("credit")))
           then strLower (cat.getD ("credit")) else "credit")
      ∧ rf.severity =
          (if VALID_SEVERITIES.contains (strLower (sev.getD ("low")))
           then strLower (sev.getD ("low")) else "low")
      ∧ rf.category ∈ VALID_CATEGORIES
      ∧ rf.severity ∈ VALID_SEVERITIES
      ∧ rf.description = d)
    ∧ (∀ s dd now s1, save_underwriting_decision dd now s = Except.ok s1 →
      s1.risk_factors =
        s.risk_factors ++ (dd.risk_factors.getD []).filterMap riskFactorRowOf) := by
  constructor
  · have hrow : riskFactorRowOf (RiskFactorPayload.dict cat sev desc mit idby) =
        some { category :=
                 if VALID_CATEGORIES.contains (strLower (cat.getD ("credit")))
                 then strLower (cat.getD ("credit")) else "credit"
               severity :=
                 if VALID_SEVERITIES.contains (strLower (sev.getD ("low")))
                 then strLower (sev.getD ("low")) else "low"
               description := d
               mitigation := mit.getD ("")
               identified_by := idby.getD ("decision_agent") } := by
      simp only [riskFactorRowOf, hdesc]
      rw [if_neg hne]
    refine ⟨_, hrow, rfl, rfl, ?_, ?_, rfl⟩
    · by_cases hcat : VALID_CATEGORIES.contains (strLower (cat.getD ("credit"))) = true
      · rw [if_pos hcat]
        exact List.mem_of_elem_eq_true hcat
      · rw [if_neg hcat]
        exact List.Mem.head _
    · by_cases hsev : VALID_SEVERITIES.contains (strLower (sev.getD ("low"))) = true
      · rw [if_pos hsev]
        exact List.mem_of_elem_eq_true hsev
      · rw [if_neg hsev]
        exact List.Mem.head _
  · intro s dd now s1 hok
    unfold save_underwriting_decision at hok
    split at hok
    · cases hok
    · split at hok
      · cases hok
      · injection hok with h
        subst h
        rfl

/-- Witness for C8: the normalization theorem applied to the concrete payload
entry with category `"Income"` and severity `"extreme"`. -/
theorem C8_risk_factor_normalized_witness :
    (riskFactorRowOf (RiskFactorPayload.dict (some ("Income")) (some ("extreme"))
        (some ("High DTI")) none none)).map
      (fun rf => (rf.category, rf.severity)) = some (("income"), ("low")) := by
  obtain ⟨⟨rf, hrf, hcat, hsev, _, _, _⟩, _⟩ :=
    C8_risk_factor_normalized (some ("Income")) (some ("extreme")) (some ("High DTI"))
      none none ("High DTI") rfl (by decide)
  rw [hrf]
  simp only [Option.map_some']
  rw [hcat, hsev]
  decide

/-! ## Claim C9 — the sanitized snapshot -/

/-- **C9** (confirmed): every borrower entry of the snapshot built by
`prepare_application_data` has the fixed placeholder `[APPLICANT_NAME]` as
name, the masked last-four form `***-**-XXXX` of a borrower of the
application as SSN, and the placeholder `[ADDRESS]` as address; the property
sub-document, when present, carries the placeholder `[ADDRESS]` as well — no
raw borrower name, raw SSN or raw street address is emitted.  (The builder is
a plain function of the application's read model, hence pure.) -/
theorem C9_snapshot_sanitized (a : LoanApplication) :
    (∀ e, e ∈ (prepare_application_data a).borrowers →
      e.name = "[APPLICANT_NAME]"
      ∧ e.address = "[ADDRESS]"
      ∧ ∃ b, b ∈ a.borrowers ∧ e.ssn = b.masked_ssn
          ∧ e.ssn = "***-**-" ++ b.ssn_last_four)
    ∧ (∀ p, (prepare_application_data a).property = some p →
      p.address = "[ADDRESS]") := by
  constructor
  · intro e he
    unfold prepare_application_data at he
    simp only at he
    rw [List.mem_map] at he
    obtain ⟨b, hb, rfl⟩ := he
    exact ⟨rfl, rfl, b, hb, rfl, rfl⟩
  · intro p hp
    unfold prepare_application_data at hp
    simp only at hp
    cases hprop : a.property with
    | none =>
      rw [hprop] at hp
      exact Option.noConfusion hp
    | some pr =>
      rw [hprop] at hp
      simp only [propertySnapshotOf] at hp
      injection hp with h
      subst h
      rfl

/-- Witness for C9: the borrower conjunct applied to the concrete test
application, whose single borrower carries raw PII in every field. -/
theorem C9_snapshot_sanitized_witness :
    (borrowerSnapshotOf minimalBorrower).name = "[APPLICANT_NAME]"
    ∧ (borrowerSnapshotOf minimalBorrower).address = "[ADDRESS]"
    ∧ (borrowerSnapshotOf minimalBorrower).ssn = "***-**-1234" := by
  have h := (C9_snapshot_sanitized testApplication).1
    (borrowerSnapshotOf minimalBorrower) (List.Mem.head _)
  exact ⟨h.1, h.2.1, rfl⟩

/-! ## Claim C10 — default of `requires_human_review` -/

/-- **C10** (confirmed): when a `decision_made` payload omits
`requires_human_review`, ingestion treats it as true — the workflow moves to
`human_review` (not `completed`), the application's status and `decision_at`
are left unchanged, and the application is flagged as requiring review; the
application status is auto-advanced only when the payload carries
`requires_human_review = false` explicitly. -/
theorem C10_missing_requires_review_defaults_true (s : SysState) (dd : DecisionData)
    (now : Nat) (s1 : SysState) (w1 : Workflow)
    (hok : save_underwriting_decision dd now s = Except.ok s1)
    (hw1 : s1.workflow = some w1) :
    (dd.requires_human_review = none →
      w1.status = "human_review"
      ∧ s1.application.status = s.application.status
      ∧ s1.application.decision_at = s.application.decision_at
      ∧ s1.application.requires_human_review = true)
    ∧ (s1.application.status ≠ s.application.status →
      dd.requires_human_review = some false) := by
  unfold save_underwriting_decision at hok
  split at hok
  · cases hok
  · split at hok
    · cases hok
    · rename_i w0 heq hdec
      injection hok with h
      subst h
      simp only at hw1
      constructor
      · intro hnone
        cases hst : w0.started_at <;> rw [hst] at hw1 <;> simp only at hw1 <;>
          injection hw1 with h1 <;> subst h1 <;>
          exact ⟨by simp [hnone], by simp [hnone], by simp [hnone], by simp [hnone]⟩
      · intro hne
        cases hrr : dd.requires_human_review with
        | none =>
          exact absurd (by simp [hrr]) hne
        | some b =>
          cases b with
          | true => exact absurd (by simp [hrr]) hne
          | false => rfl

/-- Witness for C10: the default branch applied on the concrete
`decision_made` callback of `s_decided`, whose payload omits
`requires_human_review`. -/
theorem C10_missing_requires_review_defaults_true_witness :
    (s_decided.workflow.getD fallbackWorkflow).status = "human_review"
    ∧ s_decided.application.status = s_started.application.status
    ∧ s_decided.application.decision_at = s_started.application.decision_at
    ∧ s_decided.application.requires_human_review = true :=
  (C10_missing_requires_review_defaults_true s_started basicDecision 5 s_decided
    (s_decided.workflow.getD fallbackWorkflow) rfl rfl).1 rfl

end MU
